import Mathlib

/-!
Verification of the Amazon FBA Business Planner profitability core.

Numbers are modelled as exact rationals (ℚ).  All definitions are
shallow embeddings of the TypeScript source:
* `calculateMetrics` embeds `calculateMetrics` from `src/utils.ts`;
* `aggregatePortfolio` and `paybackDisplay` embed the KPI computations
  of the `SummaryCards` component (`src/unnamed/part_000`).
-/

namespace FBA

/-- Embeds `ProductInput` from `src/types.ts` (the opaque `id`/`sku`
strings are omitted: no formula reads them). -/
structure ProductInput where
  unitsRequired : ℚ
  unitPriceUSD : ℚ
  fxRate : ℚ
  shippingAndCustomsInr : ℚ
  packagingInr : ℚ
  sellingPriceInr : ℚ
  pickAndPackFee : ℚ
  shippingWeightFee : ℚ
  storageFee : ℚ
  returnsRatePercent : ℚ
  estMonthlySalesUnits : ℚ
  adsCostPercent : ℚ
  monthlyFixedCosts : ℚ
  deriving DecidableEq, Repr

/-- Embeds `CalculatedMetrics` from `src/types.ts`. -/
structure CalculatedMetrics where
  unitPriceInr : ℚ
  landedCogs : ℚ
  grossProfit : ℚ
  grossProfitMargin : ℚ
  referralFee : ℚ
  fixedClosingFee : ℚ
  gstOnMktFee : ℚ
  gstOnSale : ℚ
  returnsCost : ℚ
  totalMktFeesPerUnit : ℚ
  totalMktFeesPercent : ℚ
  monthlyRevenue : ℚ
  adsCostPerUnit : ℚ
  overheadPerUnit : ℚ
  totalCostPerUnit : ℚ
  realNetProfit : ℚ
  realNetProfitMargin : ℚ
  totalMonthlyTakeHome : ℚ
  roi : ℚ
  deriving DecidableEq, Repr

/-- Embeds `calculateMetrics` from `src/utils.ts` line for line. -/
def calculateMetrics (input : ProductInput) : CalculatedMetrics :=
  let unitPriceInr := input.unitPriceUSD * input.fxRate
  let landedCogs := unitPriceInr + input.shippingAndCustomsInr + input.packagingInr
  let grossProfit := input.sellingPriceInr - landedCogs
  let grossProfitMargin :=
    if input.sellingPriceInr > 0 then (grossProfit / input.sellingPriceInr) * 100 else 0
  let referralFee :=
    if input.sellingPriceInr < 300 then 0 else input.sellingPriceInr * 0.105
  let fixedClosingFee : ℚ :=
    if input.sellingPriceInr > 1000 then 71
    else if input.sellingPriceInr > 500 then 26
    else 13
  let sumFees := referralFee + fixedClosingFee + input.pickAndPackFee
      + input.shippingWeightFee + input.storageFee
  let gstOnMktFee := sumFees * 0.18
  let gstOnSale := input.sellingPriceInr * 0.05
  let returnsCost := (input.sellingPriceInr + referralFee) * (input.returnsRatePercent / 100)
  let totalMktFeesPerUnit := sumFees + gstOnMktFee + returnsCost
  let totalMktFeesPercent :=
    if input.sellingPriceInr > 0 then (totalMktFeesPerUnit / input.sellingPriceInr) * 100 else 0
  let monthlyRevenue := input.estMonthlySalesUnits * input.sellingPriceInr
  let adsCostPerUnit := input.sellingPriceInr * (input.adsCostPercent / 100)
  let overheadPerUnit :=
    if input.estMonthlySalesUnits > 0
    then input.monthlyFixedCosts / input.estMonthlySalesUnits else 0
  let totalCostPerUnit := landedCogs + totalMktFeesPerUnit + gstOnSale
      + adsCostPerUnit + overheadPerUnit
  let realNetProfit := input.sellingPriceInr - totalCostPerUnit
  let realNetProfitMargin :=
    if input.sellingPriceInr > 0 then (realNetProfit / input.sellingPriceInr) * 100 else 0
  let totalMonthlyTakeHome := realNetProfit * input.estMonthlySalesUnits
  let roi := if landedCogs > 0 then (realNetProfit / landedCogs) * 100 else 0
  { unitPriceInr := unitPriceInr
    landedCogs := landedCogs
    grossProfit := grossProfit
    grossProfitMargin := grossProfitMargin
    referralFee := referralFee
    fixedClosingFee := fixedClosingFee
    gstOnMktFee := gstOnMktFee
    gstOnSale := gstOnSale
    returnsCost := returnsCost
    totalMktFeesPerUnit := totalMktFeesPerUnit
    totalMktFeesPercent := totalMktFeesPercent
    monthlyRevenue := monthlyRevenue
    adsCostPerUnit := adsCostPerUnit
    overheadPerUnit := overheadPerUnit
    totalCostPerUnit := totalCostPerUnit
    realNetProfit := realNetProfit
    realNetProfitMargin := realNetProfitMargin
    totalMonthlyTakeHome := totalMonthlyTakeHome
    roi := roi }

/-- Embeds `Product` from `src/types.ts`: `ProductInput ∪ CalculatedMetrics`. -/
structure Product extends ProductInput, CalculatedMetrics
  deriving DecidableEq, Repr

/-- Embeds the enrichment done in `src/unnamed/part_002`
(`{...input, ...calculateMetrics(input)}`). -/
def enrich (input : ProductInput) : Product :=
  { input, calculateMetrics input with }

/-- The portfolio-level KPIs computed by `SummaryCards`
(`src/unnamed/part_000`, lines 24-62). -/
structure PortfolioKPIs where
  totalInventoryValue : ℚ
  totalInventoryRevenue : ℚ
  totalInventoryGrossProfit : ℚ
  inventoryGrossProfitMargin : ℚ
  totalInventoryNetProfit : ℚ
  inventoryNetProfitMargin : ℚ
  totalMonthlyRevenue : ℚ
  totalMonthlyCOGS : ℚ
  daysOfInventory : ℚ
  contributionMarginPercent : ℚ
  totalMonthlyTakeHome : ℚ
  monthsToPayback : ℚ
  deriving DecidableEq, Repr

/-- Embeds the KPI calculations at the top of `SummaryCards`
(`src/unnamed/part_000`, lines 24-62); every `reduce` with
accumulator `0` becomes a `List.foldl` with initial value `0`. -/
def aggregatePortfolio (products : List Product) : PortfolioKPIs :=
  let totalInventoryValue :=
    products.foldl (fun acc p => acc + p.landedCogs * p.unitsRequired) (0 : ℚ)
  let totalInventoryRevenue :=
    products.foldl (fun acc p => acc + p.sellingPriceInr * p.unitsRequired) (0 : ℚ)
  let totalInventoryGrossProfit :=
    products.foldl (fun acc p => acc + (p.sellingPriceInr - p.landedCogs) * p.unitsRequired) (0 : ℚ)
  let inventoryGrossProfitMargin :=
    if totalInventoryRevenue > 0
    then (totalInventoryGrossProfit / totalInventoryRevenue) * 100 else 0
  let totalInventoryNetProfit :=
    products.foldl (fun acc p => acc + p.realNetProfit * p.unitsRequired) (0 : ℚ)
  let inventoryNetProfitMargin :=
    if totalInventoryRevenue > 0
    then (totalInventoryNetProfit / totalInventoryRevenue) * 100 else 0
  let totalMonthlyRevenue :=
    products.foldl (fun acc p => acc + p.monthlyRevenue) (0 : ℚ)
  let totalMonthlyCOGS :=
    products.foldl (fun acc p => acc + p.landedCogs * p.estMonthlySalesUnits) (0 : ℚ)
  let daysOfInventory :=
    if totalMonthlyCOGS > 0 then (totalInventoryValue / totalMonthlyCOGS) * 30 else 0
  let totalMonthlyContribution :=
    products.foldl (fun acc p =>
      let variableCostPerUnit := p.landedCogs + p.totalMktFeesPerUnit + p.gstOnSale
      let contributionPerUnit := p.sellingPriceInr - variableCostPerUnit
      acc + contributionPerUnit * p.estMonthlySalesUnits) (0 : ℚ)
  let contributionMarginPercent :=
    if totalMonthlyRevenue > 0
    then (totalMonthlyContribution / totalMonthlyRevenue) * 100 else 0
  let totalMonthlyTakeHome :=
    products.foldl (fun acc p => acc + p.totalMonthlyTakeHome) (0 : ℚ)
  let monthsToPayback :=
    if totalMonthlyTakeHome > 0 then totalInventoryValue / totalMonthlyTakeHome else 0
  { totalInventoryValue := totalInventoryValue
    totalInventoryRevenue := totalInventoryRevenue
    totalInventoryGrossProfit := totalInventoryGrossProfit
    inventoryGrossProfitMargin := inventoryGrossProfitMargin
    totalInventoryNetProfit := totalInventoryNetProfit
    inventoryNetProfitMargin := inventoryNetProfitMargin
    totalMonthlyRevenue := totalMonthlyRevenue
    totalMonthlyCOGS := totalMonthlyCOGS
    daysOfInventory := daysOfInventory
    contributionMarginPercent := contributionMarginPercent
    totalMonthlyTakeHome := totalMonthlyTakeHome
    monthsToPayback := monthsToPayback }

/-- The value of the "Inv. Recovery" efficiency card: either the
not-applicable sentinel string or a numeric months value. -/
inductive PaybackDisplay where
  | notApplicable : PaybackDisplay
  | months : ℚ → PaybackDisplay
  deriving DecidableEq, Repr

/-- Embeds the "Inv. Recovery" card value from `src/unnamed/part_000`
line 129: `monthsToPayback === Infinity || monthsToPayback <= 0 ? 'N/A'
: ...Months`.  Over exact rationals the `Infinity` disjunct never
fires, so the sentinel is shown exactly when `monthsToPayback ≤ 0`. -/
def paybackDisplay (products : List Product) : PaybackDisplay :=
  let monthsToPayback := (aggregatePortfolio products).monthsToPayback
  if monthsToPayback ≤ 0 then PaybackDisplay.notApplicable
  else PaybackDisplay.months monthsToPayback

/-- The first entry of `INITIAL_PRODUCTS` in `src/utils.ts`
("Penguin 20CM") — also the regression vector of the spec's section 8. -/
def penguinInput : ProductInput :=
  { unitsRequired := 1500
    unitPriceUSD := 2
    fxRate := 90
    shippingAndCustomsInr := 29
    packagingInr := 20
    sellingPriceInr := 659
    pickAndPackFee := 17
    shippingWeightFee := 65
    storageFee := 5
    returnsRatePercent := 7
    estMonthlySalesUnits := 200
    adsCostPercent := 10
    monthlyFixedCosts := 1000 }

/-- A product input with the given selling price and every other field
zero, used to exercise the price-driven fee schedule. -/
def mkPriceInput (price : ℚ) : ProductInput :=
  { unitsRequired := 0
    unitPriceUSD := 0
    fxRate := 0
    shippingAndCustomsInr := 0
    packagingInr := 0
    sellingPriceInr := price
    pickAndPackFee := 0
    shippingWeightFee := 0
    storageFee := 0
    returnsRatePercent := 0
    estMonthlySalesUnits := 0
    adsCostPercent := 0
    monthlyFixedCosts := 0 }

/-- A product with zero stock on order (`unitsRequired = 0`) but a
strictly positive monthly take-home: its portfolio has
`totalInventoryValue = 0` and `totalMonthlyTakeHome > 0`. -/
def zeroStockInput : ProductInput :=
  { unitsRequired := 0
    unitPriceUSD := 0
    fxRate := 1
    shippingAndCustomsInr := 0
    packagingInr := 0
    sellingPriceInr := 1000
    pickAndPackFee := 0
    shippingWeightFee := 0
    storageFee := 0
    returnsRatePercent := 0
    estMonthlySalesUnits := 10
    adsCostPercent := 0
    monthlyFixedCosts := 0 }

/-- The section-3 field ranges of the spec for one `ProductInput`. -/
def ValidInput (i : ProductInput) : Prop :=
  (∃ n : ℕ, i.unitsRequired = n) ∧ 0 ≤ i.unitPriceUSD ∧ 0 < i.fxRate ∧
  0 ≤ i.shippingAndCustomsInr ∧ 0 ≤ i.packagingInr ∧ 0 ≤ i.sellingPriceInr ∧
  0 ≤ i.pickAndPackFee ∧ 0 ≤ i.shippingWeightFee ∧ 0 ≤ i.storageFee ∧
  0 ≤ i.returnsRatePercent ∧ i.returnsRatePercent ≤ 100 ∧
  (∃ n : ℕ, i.estMonthlySalesUnits = n) ∧ 0 ≤ i.estMonthlySalesUnits ∧
  0 ≤ i.adsCostPercent ∧ i.adsCostPercent ≤ 100 ∧ 0 ≤ i.monthlyFixedCosts

section ProjectionLemmas

variable (i : ProductInput)

lemma unitPriceInr_eq :
    (calculateMetrics i).unitPriceInr = i.unitPriceUSD * i.fxRate := rfl

lemma landedCogs_eq :
    (calculateMetrics i).landedCogs =
      i.unitPriceUSD * i.fxRate + i.shippingAndCustomsInr + i.packagingInr := rfl

lemma referralFee_eq :
    (calculateMetrics i).referralFee =
      if i.sellingPriceInr < 300 then 0 else i.sellingPriceInr * 0.105 := rfl

lemma fixedClosingFee_eq :
    (calculateMetrics i).fixedClosingFee =
      if i.sellingPriceInr > 1000 then 71
      else if i.sellingPriceInr > 500 then 26
      else 13 := rfl

lemma gstOnMktFee_eq :
    (calculateMetrics i).gstOnMktFee =
      ((calculateMetrics i).referralFee + (calculateMetrics i).fixedClosingFee
        + i.pickAndPackFee + i.shippingWeightFee + i.storageFee) * 0.18 := rfl

lemma gstOnSale_eq :
    (calculateMetrics i).gstOnSale = i.sellingPriceInr * 0.05 := rfl

lemma returnsCost_eq :
    (calculateMetrics i).returnsCost =
      (i.sellingPriceInr + (calculateMetrics i).referralFee)
        * (i.returnsRatePercent / 100) := rfl

lemma totalMktFeesPerUnit_eq :
    (calculateMetrics i).totalMktFeesPerUnit =
      ((calculateMetrics i).referralFee + (calculateMetrics i).fixedClosingFee
        + i.pickAndPackFee + i.shippingWeightFee + i.storageFee)
        + (calculateMetrics i).gstOnMktFee + (calculateMetrics i).returnsCost := rfl

lemma monthlyRevenue_eq :
    (calculateMetrics i).monthlyRevenue =
      i.estMonthlySalesUnits * i.sellingPriceInr := rfl

lemma adsCostPerUnit_eq :
    (calculateMetrics i).adsCostPerUnit =
      i.sellingPriceInr * (i.adsCostPercent / 100) := rfl

lemma overheadPerUnit_eq :
    (calculateMetrics i).overheadPerUnit =
      if i.estMonthlySalesUnits > 0
      then i.monthlyFixedCosts / i.estMonthlySalesUnits else 0 := rfl

lemma totalCostPerUnit_eq :
    (calculateMetrics i).totalCostPerUnit =
      (calculateMetrics i).landedCogs + (calculateMetrics i).totalMktFeesPerUnit
        + (calculateMetrics i).gstOnSale + (calculateMetrics i).adsCostPerUnit
        + (calculateMetrics i).overheadPerUnit := rfl

lemma grossProfitMargin_eq :
    (calculateMetrics i).grossProfitMargin =
      if i.sellingPriceInr > 0
      then ((calculateMetrics i).grossProfit / i.sellingPriceInr) * 100 else 0 := rfl

lemma totalMktFeesPercent_eq :
    (calculateMetrics i).totalMktFeesPercent =
      if i.sellingPriceInr > 0
      then ((calculateMetrics i).totalMktFeesPerUnit / i.sellingPriceInr) * 100
      else 0 := rfl

lemma realNetProfitMargin_eq :
    (calculateMetrics i).realNetProfitMargin =
      if i.sellingPriceInr > 0
      then ((calculateMetrics i).realNetProfit / i.sellingPriceInr) * 100 else 0 := rfl

lemma roi_eq :
    (calculateMetrics i).roi =
      if (calculateMetrics i).landedCogs > 0
      then ((calculateMetrics i).realNetProfit / (calculateMetrics i).landedCogs) * 100
      else 0 := rfl

end ProjectionLemmas

section AggregateLemmas

variable (ps : List Product)

lemma totalInventoryValue_eq :
    (aggregatePortfolio ps).totalInventoryValue =
      ps.foldl (fun acc p => acc + p.landedCogs * p.unitsRequired) (0 : ℚ) := rfl

lemma totalMonthlyRevenue_eq :
    (aggregatePortfolio ps).totalMonthlyRevenue =
      ps.foldl (fun acc p => acc + p.monthlyRevenue) (0 : ℚ) := rfl

lemma totalMonthlyTakeHome_eq :
    (aggregatePortfolio ps).totalMonthlyTakeHome =
      ps.foldl (fun acc p => acc + p.totalMonthlyTakeHome) (0 : ℚ) := rfl

lemma monthsToPayback_eq :
    (aggregatePortfolio ps).monthsToPayback =
      if (aggregatePortfolio ps).totalMonthlyTakeHome > 0
      then (aggregatePortfolio ps).totalInventoryValue
            / (aggregatePortfolio ps).totalMonthlyTakeHome
      else 0 := rfl

lemma contributionMarginPercent_eq :
    (aggregatePortfolio ps).contributionMarginPercent =
      if ps.foldl (fun acc p => acc + p.monthlyRevenue) (0 : ℚ) > 0
      then (ps.foldl (fun acc p =>
              acc + (p.sellingPriceInr
                      - (p.landedCogs + p.totalMktFeesPerUnit + p.gstOnSale))
                    * p.estMonthlySalesUnits) (0 : ℚ)
            / ps.foldl (fun acc p => acc + p.monthlyRevenue) (0 : ℚ)) * 100
      else 0 := rfl

lemma paybackDisplay_eq :
    paybackDisplay ps =
      if (aggregatePortfolio ps).monthsToPayback ≤ 0 then PaybackDisplay.notApplicable
      else PaybackDisplay.months (aggregatePortfolio ps).monthsToPayback := rfl

lemma foldl_add_eq_sum (f : Product → ℚ) (l : List Product) :
    ∀ c : ℚ, l.foldl (fun acc p => acc + f p) c = c + (l.map f).sum := by
  induction l with
  | nil => intro c; simp
  | cons head tail ih =>
      intro c
      simp only [List.foldl_cons, List.map_cons, List.sum_cons, ih]
      ring

lemma foldl_add_zero (f : Product → ℚ) (l : List Product) :
    l.foldl (fun acc p => acc + f p) (0 : ℚ) = (l.map f).sum := by
  rw [foldl_add_eq_sum]; exact zero_add _

lemma foldl_add_perm (f : Product → ℚ) {l l2 : List Product} (h : l.Perm l2) :
    l.foldl (fun acc p => acc + f p) (0 : ℚ)
      = l2.foldl (fun acc p => acc + f p) (0 : ℚ) := by
  rw [foldl_add_zero, foldl_add_zero, List.Perm.sum_eq (h.map f)]

end AggregateLemmas

/-- C1: for every product list with total monthly take-home ≤ 0 (including
the empty list) the payback card shows the not-applicable sentinel; with
take-home > 0 the `monthsToPayback` KPI is `totalInventoryValue` divided by
the take-home; but a genuine zero-months payback (`totalInventoryValue = 0`
with positive take-home) is *also* shown as the sentinel, because the card
treats every `monthsToPayback ≤ 0` as not applicable (amended claim). -/
theorem C1_payback_amended (ps : List Product) :
    ((aggregatePortfolio ps).totalMonthlyTakeHome ≤ 0 →
      paybackDisplay ps = PaybackDisplay.notApplicable) ∧
    (0 < (aggregatePortfolio ps).totalMonthlyTakeHome →
      (aggregatePortfolio ps).monthsToPayback =
        (aggregatePortfolio ps).totalInventoryValue
          / (aggregatePortfolio ps).totalMonthlyTakeHome) ∧
    (0 < (aggregatePortfolio ps).totalMonthlyTakeHome →
      (aggregatePortfolio ps).totalInventoryValue = 0 →
      paybackDisplay ps = PaybackDisplay.notApplicable) := by
  refine ⟨?_, ?_, ?_⟩
  · intro h
    rw [paybackDisplay_eq, monthsToPayback_eq, if_neg (not_lt.mpr h)]
    simp
  · intro h
    rw [monthsToPayback_eq, if_pos h]
  · intro h h0
    rw [paybackDisplay_eq, monthsToPayback_eq, if_pos h, h0, zero_div]
    simp

/-- C1 witness: the one-product portfolio with zero stock and positive
monthly profit instantiates the genuine-zero-payback branch. -/
theorem C1_payback_amended_witness :
    0 < (aggregatePortfolio [enrich zeroStockInput]).totalMonthlyTakeHome ∧
    (aggregatePortfolio [enrich zeroStockInput]).totalInventoryValue = 0 ∧
    paybackDisplay [enrich zeroStockInput] = PaybackDisplay.notApplicable :=
  ⟨by norm_num [aggregatePortfolio, enrich, calculateMetrics, zeroStockInput, List.foldl],
   by norm_num [aggregatePortfolio, enrich, calculateMetrics, zeroStockInput, List.foldl],
   (C1_payback_amended [enrich zeroStockInput]).2.2
     (by norm_num [aggregatePortfolio, enrich, calculateMetrics, zeroStockInput, List.foldl])
     (by norm_num [aggregatePortfolio, enrich, calculateMetrics, zeroStockInput, List.foldl])⟩

/-- C1 counterexample: a portfolio with `totalInventoryValue = 0` and
`totalMonthlyTakeHome > 0` — a genuine zero-months payback — is displayed
as the not-applicable sentinel, not as the numeric value 0, refuting the
last part of the claim as stated. -/
theorem C1_payback_counterexample :
    0 < (aggregatePortfolio [enrich zeroStockInput]).totalMonthlyTakeHome ∧
    (aggregatePortfolio [enrich zeroStockInput]).totalInventoryValue = 0 ∧
    paybackDisplay [enrich zeroStockInput] = PaybackDisplay.notApplicable ∧
    paybackDisplay [enrich zeroStockInput] ≠ PaybackDisplay.months 0 := by
  have hdisp : paybackDisplay [enrich zeroStockInput] = PaybackDisplay.notApplicable := by
    norm_num [paybackDisplay, aggregatePortfolio, enrich, calculateMetrics,
      zeroStockInput, List.foldl]
  refine ⟨?_, ?_, hdisp, ?_⟩
  · norm_num [aggregatePortfolio, enrich, calculateMetrics, zeroStockInput, List.foldl]
  · norm_num [aggregatePortfolio, enrich, calculateMetrics, zeroStockInput, List.foldl]
  · rw [hdisp]; simp

/-- C2: the end-to-end regression vector — the "Penguin 20CM" input yields
`unitPriceInr = 180`, `landedCogs = 229`, `referralFee = 69.195`,
`fixedClosingFee = 26`, and a `realNetProfit` equal to the value obtained by
chaining the section-4.2 formulas for steps 5 through 13 exactly. -/
theorem C2_regression_vector :
    (calculateMetrics penguinInput).unitPriceInr = 180 ∧
    (calculateMetrics penguinInput).landedCogs = 229 ∧
    (calculateMetrics penguinInput).referralFee = 69.195 ∧
    (calculateMetrics penguinInput).fixedClosingFee = 26 ∧
    (calculateMetrics penguinInput).realNetProfit =
      (let sumFees : ℚ := 69.195 + 26 + 17 + 65 + 5
       let gstOnMktFee := sumFees * 0.18
       let gstOnSale : ℚ := 659 * 0.05
       let returnsCost : ℚ := (659 + 69.195) * (7 / 100)
       let totalMktFeesPerUnit := sumFees + gstOnMktFee + returnsCost
       let adsCostPerUnit : ℚ := 659 * (10 / 100)
       let overheadPerUnit : ℚ := 1000 / 200
       let totalCostPerUnit :=
         229 + totalMktFeesPerUnit + gstOnSale + adsCostPerUnit + overheadPerUnit
       659 - totalCostPerUnit) := by
  refine ⟨?_, ?_, ?_, ?_, ?_⟩ <;> norm_num [calculateMetrics, penguinInput]

/-- C3: the fixed closing fee is a tiered step function of the selling
price: 71 above 1000, 26 on (500, 1000], and 13 at or below 500, with the
four boundary values 500 ↦ 13, 500.01 ↦ 26, 1000 ↦ 26, 1000.01 ↦ 71. -/
theorem C3_closing_fee_tiers (input : ProductInput) :
    (input.sellingPriceInr > 1000 → (calculateMetrics input).fixedClosingFee = 71) ∧
    (500 < input.sellingPriceInr ∧ input.sellingPriceInr ≤ 1000 →
      (calculateMetrics input).fixedClosingFee = 26) ∧
    (input.sellingPriceInr ≤ 500 → (calculateMetrics input).fixedClosingFee = 13) ∧
    (calculateMetrics (mkPriceInput 500)).fixedClosingFee = 13 ∧
    (calculateMetrics (mkPriceInput 500.01)).fixedClosingFee = 26 ∧
    (calculateMetrics (mkPriceInput 1000)).fixedClosingFee = 26 ∧
    (calculateMetrics (mkPriceInput 1000.01)).fixedClosingFee = 71 := by
  refine ⟨?_, ?_, ?_, ?_, ?_, ?_, ?_⟩
  · intro h
    rw [fixedClosingFee_eq, if_pos h]
  · rintro ⟨h1, h2⟩
    rw [fixedClosingFee_eq, if_neg (not_lt.mpr h2), if_pos h1]
  · intro h
    rw [fixedClosingFee_eq, if_neg (not_lt.mpr (by linarith)),
        if_neg (not_lt.mpr h)]
  all_goals norm_num [calculateMetrics, mkPriceInput]

/-- C3 witness: a 700-rupee price sits in the middle tier and pays 26. -/
theorem C3_closing_fee_tiers_witness :
    (500 < (mkPriceInput 700).sellingPriceInr ∧
      (mkPriceInput 700).sellingPriceInr ≤ 1000) ∧
    (calculateMetrics (mkPriceInput 700)).fixedClosingFee = 26 :=
  ⟨⟨by norm_num [mkPriceInput], by norm_num [mkPriceInput]⟩,
   (C3_closing_fee_tiers (mkPriceInput 700)).2.1
     ⟨by norm_num [mkPriceInput], by norm_num [mkPriceInput]⟩⟩

/-- C4: the referral fee is 0 below a 300-rupee selling price and
10.5% of the selling price from 300 upward, with boundary values
299.99 ↦ 0 and 300 ↦ 31.5. -/
theorem C4_referral_fee (input : ProductInput) :
    (input.sellingPriceInr < 300 → (calculateMetrics input).referralFee = 0) ∧
    (300 ≤ input.sellingPriceInr →
      (calculateMetrics input).referralFee = input.sellingPriceInr * 0.105) ∧
    (calculateMetrics (mkPriceInput 299.99)).referralFee = 0 ∧
    (calculateMetrics (mkPriceInput 300)).referralFee = 31.5 := by
  refine ⟨?_, ?_, ?_, ?_⟩
  · intro h
    rw [referralFee_eq, if_pos h]
  · intro h
    rw [referralFee_eq, if_neg (not_lt.mpr h)]
  all_goals norm_num [calculateMetrics, mkPriceInput]

/-- C4 witness: a 250-rupee price is below the threshold and pays 0. -/
theorem C4_referral_fee_witness :
    (mkPriceInput 250).sellingPriceInr < 300 ∧
    (calculateMetrics (mkPriceInput 250)).referralFee = 0 :=
  ⟨by norm_num [mkPriceInput],
   (C4_referral_fee (mkPriceInput 250)).1 (by norm_num [mkPriceInput])⟩

/-- C5: every division in the engine is guarded: a zero selling price
forces all three margin percentages to 0, zero monthly sales force the
overhead per unit to 0, and a non-positive landed cost forces the ROI
to 0 — the function is total and never divides by the zero denominator. -/
theorem C5_division_guards (input : ProductInput) :
    (input.sellingPriceInr = 0 →
      (calculateMetrics input).grossProfitMargin = 0 ∧
      (calculateMetrics input).totalMktFeesPercent = 0 ∧
      (calculateMetrics input).realNetProfitMargin = 0) ∧
    (input.estMonthlySalesUnits = 0 → (calculateMetrics input).overheadPerUnit = 0) ∧
    ((calculateMetrics input).landedCogs ≤ 0 → (calculateMetrics input).roi = 0) := by
  refine ⟨?_, ?_, ?_⟩
  · intro h
    refine ⟨?_, ?_, ?_⟩
    · rw [grossProfitMargin_eq, if_neg (by simp [h])]
    · rw [totalMktFeesPercent_eq, if_neg (by simp [h])]
    · rw [realNetProfitMargin_eq, if_neg (by simp [h])]
  · intro h
    rw [overheadPerUnit_eq, if_neg (by simp [h])]
  · intro h
    rw [roi_eq, if_neg (not_lt.mpr h)]

/-- C5 witness: the all-zero product exercises all three guards at once. -/
theorem C5_division_guards_witness :
    (mkPriceInput 0).sellingPriceInr = 0 ∧
    (mkPriceInput 0).estMonthlySalesUnits = 0 ∧
    (calculateMetrics (mkPriceInput 0)).landedCogs ≤ 0 ∧
    (calculateMetrics (mkPriceInput 0)).grossProfitMargin = 0 ∧
    (calculateMetrics (mkPriceInput 0)).totalMktFeesPercent = 0 ∧
    (calculateMetrics (mkPriceInput 0)).realNetProfitMargin = 0 ∧
    (calculateMetrics (mkPriceInput 0)).overheadPerUnit = 0 ∧
    (calculateMetrics (mkPriceInput 0)).roi = 0 := by
  have h := C5_division_guards (mkPriceInput 0)
  have h1 := h.1 (by norm_num [mkPriceInput])
  have h2 := h.2.1 (by norm_num [mkPriceInput])
  have h3 := h.2.2 (by norm_num [calculateMetrics, mkPriceInput])
  exact ⟨by norm_num [mkPriceInput], by norm_num [mkPriceInput],
    by norm_num [calculateMetrics, mkPriceInput], h1.1, h1.2.1, h1.2.2, h2, h3⟩

/-- C6: the returns cost is computed on the sale price plus the referral
fee already derived for the same input, times the returns rate. -/
theorem C6_returns_cost (input : ProductInput) :
    (calculateMetrics input).returnsCost =
      (input.sellingPriceInr + (calculateMetrics input).referralFee)
        * (input.returnsRatePercent / 100) := rfl

/-- C7: the portfolio KPIs are invariant under permutation of the
product list. -/
theorem C7_order_independence (ps qs : List Product) (h : ps.Perm qs) :
    aggregatePortfolio ps = aggregatePortfolio qs := by
  simp only [aggregatePortfolio]
  rw [foldl_add_perm (fun p => p.landedCogs * p.unitsRequired) h,
      foldl_add_perm (fun p => p.sellingPriceInr * p.unitsRequired) h,
      foldl_add_perm (fun p => (p.sellingPriceInr - p.landedCogs) * p.unitsRequired) h,
      foldl_add_perm (fun p => p.realNetProfit * p.unitsRequired) h,
      foldl_add_perm (fun p => p.monthlyRevenue) h,
      foldl_add_perm (fun p => p.landedCogs * p.estMonthlySalesUnits) h,
      foldl_add_perm (fun p =>
        (p.sellingPriceInr - (p.landedCogs + p.totalMktFeesPerUnit + p.gstOnSale))
          * p.estMonthlySalesUnits) h,
      foldl_add_perm (fun p => p.totalMonthlyTakeHome) h]

/-- C7 witness: swapping a concrete two-product catalog leaves every
portfolio KPI unchanged. -/
theorem C7_order_independence_witness :
    ([enrich penguinInput, enrich zeroStockInput]).Perm
      [enrich zeroStockInput, enrich penguinInput] ∧
    aggregatePortfolio [enrich penguinInput, enrich zeroStockInput]
      = aggregatePortfolio [enrich zeroStockInput, enrich penguinInput] :=
  ⟨List.Perm.swap (enrich zeroStockInput) (enrich penguinInput) [],
   C7_order_independence _ _
     (List.Perm.swap (enrich zeroStockInput) (enrich penguinInput) [])⟩

/-- C8: the aggregated contribution margin percent is the sum over
products of (price − (landed cost + marketplace fees + sale tax)) ×
monthly units, divided by the summed monthly revenue, times 100 — and
0 when the total monthly revenue is 0; ads cost and overhead are
excluded from the per-unit variable cost. -/
theorem C8_contribution_margin (ps : List Product) :
    ((ps.map (fun p => p.monthlyRevenue)).sum = 0 →
      (aggregatePortfolio ps).contributionMarginPercent = 0) ∧
    (0 < (ps.map (fun p => p.monthlyRevenue)).sum →
      (aggregatePortfolio ps).contributionMarginPercent =
        ((ps.map (fun p =>
            (p.sellingPriceInr - (p.landedCogs + p.totalMktFeesPerUnit + p.gstOnSale))
              * p.estMonthlySalesUnits)).sum
          / (ps.map (fun p => p.monthlyRevenue)).sum) * 100) := by
  constructor
  · intro h
    rw [contributionMarginPercent_eq,
        foldl_add_zero (fun p => p.monthlyRevenue),
        foldl_add_zero (fun p =>
          (p.sellingPriceInr - (p.landedCogs + p.totalMktFeesPerUnit + p.gstOnSale))
            * p.estMonthlySalesUnits),
        h]
    simp
  · intro h
    rw [contributionMarginPercent_eq,
        foldl_add_zero (fun p => p.monthlyRevenue),
        foldl_add_zero (fun p =>
          (p.sellingPriceInr - (p.landedCogs + p.totalMktFeesPerUnit + p.gstOnSale))
            * p.estMonthlySalesUnits),
        if_pos h]

/-- C8 witness: the one-product Penguin catalog has positive monthly
revenue and satisfies the contribution-margin formula. -/
theorem C8_contribution_margin_witness :
    0 < ([enrich penguinInput].map (fun p => p.monthlyRevenue)).sum ∧
    (aggregatePortfolio [enrich penguinInput]).contributionMarginPercent =
      (([enrich penguinInput].map (fun p =>
          (p.sellingPriceInr - (p.landedCogs + p.totalMktFeesPerUnit + p.gstOnSale))
            * p.estMonthlySalesUnits)).sum
        / ([enrich penguinInput].map (fun p => p.monthlyRevenue)).sum) * 100 :=
  ⟨by norm_num [enrich, calculateMetrics, penguinInput],
   (C8_contribution_margin [enrich penguinInput]).2
     (by norm_num [enrich, calculateMetrics, penguinInput])⟩

/-- C9: under the section-3 field ranges every monetary output field other
than the profit/margin fields is non-negative. -/
theorem C9_monetary_nonneg (i : ProductInput) (h : ValidInput i) :
    0 ≤ (calculateMetrics i).unitPriceInr ∧
    0 ≤ (calculateMetrics i).landedCogs ∧
    0 ≤ (calculateMetrics i).referralFee ∧
    0 ≤ (calculateMetrics i).fixedClosingFee ∧
    0 ≤ (calculateMetrics i).gstOnMktFee ∧
    0 ≤ (calculateMetrics i).gstOnSale ∧
    0 ≤ (calculateMetrics i).returnsCost ∧
    0 ≤ (calculateMetrics i).totalMktFeesPerUnit ∧
    0 ≤ (calculateMetrics i).monthlyRevenue ∧
    0 ≤ (calculateMetrics i).adsCostPerUnit ∧
    0 ≤ (calculateMetrics i).overheadPerUnit ∧
    0 ≤ (calculateMetrics i).totalCostPerUnit := by
  obtain ⟨-, husd, hfx, hship, hpack, hprice, hpick, hshipw, hstor,
    hret0, -, -, hest, hads0, -, hfix⟩ := h
  have hupi : 0 ≤ (calculateMetrics i).unitPriceInr := by
    rw [unitPriceInr_eq]; exact mul_nonneg husd hfx.le
  have hlc : 0 ≤ (calculateMetrics i).landedCogs := by
    rw [landedCogs_eq]
    have := mul_nonneg husd hfx.le
    linarith
  have href : 0 ≤ (calculateMetrics i).referralFee := by
    rw [referralFee_eq]
    split_ifs with hc
    · exact le_refl 0
    · exact mul_nonneg hprice (by norm_num)
  have hcf : 0 ≤ (calculateMetrics i).fixedClosingFee := by
    rw [fixedClosingFee_eq]
    split_ifs <;> norm_num
  have hgf : 0 ≤ (calculateMetrics i).gstOnMktFee := by
    rw [gstOnMktFee_eq]
    exact mul_nonneg (by linarith) (by norm_num)
  have hgs : 0 ≤ (calculateMetrics i).gstOnSale := by
    rw [gstOnSale_eq]; exact mul_nonneg hprice (by norm_num)
  have hrc : 0 ≤ (calculateMetrics i).returnsCost := by
    rw [returnsCost_eq]
    exact mul_nonneg (add_nonneg hprice href) (div_nonneg hret0 (by norm_num))
  have htmf : 0 ≤ (calculateMetrics i).totalMktFeesPerUnit := by
    rw [totalMktFeesPerUnit_eq]; linarith
  have hmr : 0 ≤ (calculateMetrics i).monthlyRevenue := by
    rw [monthlyRevenue_eq]; exact mul_nonneg hest hprice
  have hac : 0 ≤ (calculateMetrics i).adsCostPerUnit := by
    rw [adsCostPerUnit_eq]
    exact mul_nonneg hprice (div_nonneg hads0 (by norm_num))
  have hov : 0 ≤ (calculateMetrics i).overheadPerUnit := by
    rw [overheadPerUnit_eq]
    split_ifs with hc
    · exact div_nonneg hfix hc.le
    · exact le_refl 0
  have htc : 0 ≤ (calculateMetrics i).totalCostPerUnit := by
    rw [totalCostPerUnit_eq]; linarith
  exact ⟨hupi, hlc, href, hcf, hgf, hgs, hrc, htmf, hmr, hac, hov, htc⟩

/-- C9 witness: the Penguin product satisfies the section-3 ranges and
all twelve monetary fields come out non-negative. -/
theorem C9_monetary_nonneg_witness :
    ValidInput penguinInput ∧
    (0 ≤ (calculateMetrics penguinInput).unitPriceInr ∧
     0 ≤ (calculateMetrics penguinInput).landedCogs ∧
     0 ≤ (calculateMetrics penguinInput).referralFee ∧
     0 ≤ (calculateMetrics penguinInput).fixedClosingFee ∧
     0 ≤ (calculateMetrics penguinInput).gstOnMktFee ∧
     0 ≤ (calculateMetrics penguinInput).gstOnSale ∧
     0 ≤ (calculateMetrics penguinInput).returnsCost ∧
     0 ≤ (calculateMetrics penguinInput).totalMktFeesPerUnit ∧
     0 ≤ (calculateMetrics penguinInput).monthlyRevenue ∧
     0 ≤ (calculateMetrics penguinInput).adsCostPerUnit ∧
     0 ≤ (calculateMetrics penguinInput).overheadPerUnit ∧
     0 ≤ (calculateMetrics penguinInput).totalCostPerUnit) := by
  have hv : ValidInput penguinInput := by
    unfold ValidInput
    refine ⟨⟨1500, ?_⟩, ?_, ?_, ?_, ?_, ?_, ?_, ?_, ?_, ?_, ?_,
      ⟨200, ?_⟩, ?_, ?_, ?_, ?_⟩ <;> norm_num [penguinInput]
  exact ⟨hv, C9_monetary_nonneg penguinInput hv⟩

/-- C10: for every input, including zero and negative selling prices,
the fixed closing fee is one of 13, 26 or 71, and is 13 whenever the
selling price is at most 500. -/
theorem C10_closing_fee_total (input : ProductInput) :
    ((calculateMetrics input).fixedClosingFee = 13 ∨
     (calculateMetrics input).fixedClosingFee = 26 ∨
     (calculateMetrics input).fixedClosingFee = 71) ∧
    (input.sellingPriceInr ≤ 500 → (calculateMetrics input).fixedClosingFee = 13) := by
  constructor
  · rw [fixedClosingFee_eq]
    split_ifs
    · exact Or.inr (Or.inr rfl)
    · exact Or.inr (Or.inl rfl)
    · exact Or.inl rfl
  · intro h
    rw [fixedClosingFee_eq, if_neg (not_lt.mpr (by linarith)),
        if_neg (not_lt.mpr h)]

/-- C10 witness: a negative selling price still lands in the 13 tier. -/
theorem C10_closing_fee_total_witness :
    (mkPriceInput (-5)).sellingPriceInr ≤ 500 ∧
    (calculateMetrics (mkPriceInput (-5))).fixedClosingFee = 13 :=
  ⟨by norm_num [mkPriceInput],
   (C10_closing_fee_total (mkPriceInput (-5))).2 (by norm_num [mkPriceInput])⟩

end FBA
